import Mathlib

/-!
Verification of the `uritool` URL-cache and pagination engine.

This file gives a shallow embedding of the relevant parts of
`uritool/httpcache.py`, `uritool/urilib.py` and `uritool/util.py` and proves
properties about them.  The embedding is faithful to the Python source:

* the persistent shelve cache is an association list `url ↦ (date, payload)`;
* the process-wide globals (`INTERNET_SLOW`, the cache) are threaded as an
  explicit state record `St`;
* time is measured in minutes (`MINUTE_DELTA = 1`), `datetime.now()` is the
  state field `now` (a single run does not advance the clock);
* the HTTP client (`requests`) is an environment `net : String → NetResult`;
  a live request is recorded in `St.netLog` together with the timeout used;
* Python exceptions become `Except Err` results; each `Err` constructor names
  the concrete Python exception it stands for.
-/

namespace Uritool

/-- A cache payload: either response text or a recorded non-200 status code
(`data = request.status_code if request.status_code != 200 else request.text`). -/
inductive Payload where
  | text (s : String)
  | code (n : Nat)
deriving DecidableEq, Repr

/-- One cache entry: the pair `(datetime.datetime.now(), data)` stored by
`urlsave`.  `date` is the fetch time in minutes. -/
structure CacheEntry where
  date : Nat
  data : Payload
deriving DecidableEq, Repr

/-- Outcome of one live HTTP request `session.get(url, ...)`: either a
completed response with status code and body text, or an exception raised by
the transport (timeout / connection error). -/
inductive NetResult where
  | ok (status : Nat) (text : String)
  | transportFail
deriving DecidableEq, Repr

/-- Python exceptions raised by the embedded code. -/
inductive Err where
  /-- `RuntimeError(data, url)` raised by `urlopen` on a cached error code. -/
  | runtimeError (code : Nat) (url : String)
  /-- the bare `RuntimeError` raised by `Discipline.progress` on an
  unrecognized result-cell class. -/
  | parseError
  /-- a transport exception from `session.get` re-raised by the bare `raise`
  in `urlopen`'s `except:` handler. -/
  | transportError
  /-- `UnboundLocalError`: `request` referenced after the assignment
  `request = session.get(...)` raised and the handler fell through. -/
  | unboundLocal
  /-- `KeyError` from `del cache[url]` on a missing key in `urlrefresh`. -/
  | keyError (url : String)
  /-- `ValueError` from a failed `int()` / `float()` / `datetime()` conversion. -/
  | valueError
  /-- `ValueError` from `lxml`'s `fromstring` when `urlopen` hands it an
  integer payload instead of a string. -/
  | parseIntError
  /-- `IndexError` / unpacking `TypeError` from indexing a too-short row. -/
  | indexError
  /-- `SystemExit('invalid language: %r' % lang)` from `normalize_language`. -/
  | systemExit (msg : String)
  /-- fuel exhaustion marker: the embedded `while True` loop did not finish
  within the given fuel (models nontermination, never reached in the claims). -/
  | fuelOut
deriving DecidableEq, Repr

/-- The process state: the url cache (shelve file), the `INTERNET_SLOW` global,
the current time in minutes, and the log of live requests issued so far
(url together with the timeout passed to `session.get`). -/
structure St where
  cache : List (String × CacheEntry)
  internet_slow : Bool
  now : Nat
  netLog : List (String × Nat)
deriving DecidableEq, Repr

/-- `cache.get(url, default)` on the shelve mapping: first binding wins
(the association list holds at most one binding per url). -/
def cacheGet (c : List (String × CacheEntry)) (url : String) : Option CacheEntry :=
  match c with
  | [] => none
  | (k, v) :: rest => if k = url then some v else cacheGet rest url

/-- `cache[url] = entry`: replace the existing binding or append a new one. -/
def cacheSet (c : List (String × CacheEntry)) (url : String) (e : CacheEntry) :
    List (String × CacheEntry) :=
  match c with
  | [] => [(url, e)]
  | (k, v) :: rest => if k = url then (url, e) :: rest else (k, v) :: cacheSet rest url e

/-- `del cache[url]` (the caller has checked the key exists). -/
def cacheDel (c : List (String × CacheEntry)) (url : String) :
    List (String × CacheEntry) :=
  match c with
  | [] => []
  | (k, v) :: rest => if k = url then rest else (k, v) :: cacheDel rest url

/-- `MINUTE_DELTA = datetime.timedelta(minutes=1)`, with time in minutes. -/
def MINUTE_DELTA : Nat := 1

/-- `urlsave(url, data)`: store `(datetime.datetime.now(), data)` under `url`. -/
def urlsave (s : St) (url : String) (data : Payload) : St :=
  { s with cache := cacheSet s.cache url ⟨s.now, data⟩ }

/-- The download section of `urlopen` (lines after the cache checks):
`timeout = 10 if url in cache else 30`, then `request = session.get(...)`.
On a transport exception the handler sets `INTERNET_SLOW = True`; if the url
is cached it only prints a note and control falls through to
`data = request.status_code ...`, which raises `UnboundLocalError` because
`request` was never assigned; otherwise the bare `raise` re-raises.
On a completed request, a non-200 status is stored and returned as an `int`,
a 200 response is stored and returned as text. -/
def fetchLive (net : String → NetResult) (url : String) (s : St) :
    Except Err Payload × St :=
  let timeout : Nat := if (cacheGet s.cache url).isSome then 10 else 30
  let s₁ : St := { s with netLog := s.netLog ++ [(url, timeout)] }
  match net url with
  | NetResult.transportFail =>
    let s₂ : St := { s₁ with internet_slow := true }
    if (cacheGet s₂.cache url).isSome then
      (Except.error Err.unboundLocal, s₂)
    else
      (Except.error Err.transportError, s₂)
  | NetResult.ok status text =>
    let data : Payload := if status ≠ 200 then Payload.code status else Payload.text text
    (Except.ok data, urlsave s₁ url data)

/-- Embedding of `httpcache.urlopen(url, verbose, refresh, session, expires)`.
The cache checks in source order: `refresh` skips them; a cached `int` payload
raises `RuntimeError(data, url)`; cached text is returned when `expires is
None or INTERNET_SLOW`, or when its age is at most `MINUTE_DELTA * expires`;
otherwise the download section `fetchLive` runs. -/
def urlopen (net : String → NetResult) (url : String) (refresh : Bool)
    (expires : Option Nat) (s : St) : Except Err Payload × St :=
  match cacheGet s.cache url with
  | none => fetchLive net url s
  | some entry =>
    if refresh then fetchLive net url s
    else
      match entry.data with
      | Payload.code n => (Except.error (Err.runtimeError n url), s)
      | Payload.text t =>
        if expires.isNone || s.internet_slow then
          (Except.ok (Payload.text t), s)
        else if s.now - entry.date ≤ MINUTE_DELTA * expires.getD 0 then
          (Except.ok (Payload.text t), s)
        else
          fetchLive net url s

/-- Embedding of `httpcache.urlrefresh(url, *args, **kwds)`:
`del cache[url]` (raising `KeyError` when absent, before any network request
or cache mutation), then `urlopen(url, *args, **kwds)` (whose return value is
discarded). -/
def urlrefresh (net : String → NetResult) (url : String) (refresh : Bool)
    (expires : Option Nat) (s : St) : Except Err Unit × St :=
  match cacheGet s.cache url with
  | none => (Except.error (Err.keyError url), s)
  | some _ =>
    let s₁ : St := { s with cache := cacheDel s.cache url }
    match urlopen net url refresh expires s₁ with
    | (Except.error e, s₂) => (Except.error e, s₂)
    | (Except.ok _, s₂) => (Except.ok (), s₂)

/-- Embedding of `httpcache.htmlopen(url, *args, **kwds)`:
`urlopen` then `etree.fromstring(data, parser)`.  The parse environment
`parse` stands for lxml's lenient HTML parse composed with the caller's
`//table/tbody` xpath: it maps page text to the rows (lists of cell text) of
the listing table body.  Handing `fromstring` an integer payload (a cached
status code that `urlopen` returned normally) raises `ValueError`. -/
def htmlopen (parse : String → List (List String)) (net : String → NetResult)
    (url : String) (refresh : Bool) (expires : Option Nat) (s : St) :
    Except Err (List (List String)) × St :=
  match urlopen net url refresh expires s with
  | (Except.error e, s₁) => (Except.error e, s₁)
  | (Except.ok (Payload.code _), s₁) => (Except.error Err.parseIntError, s₁)
  | (Except.ok (Payload.text t), s₁) => (Except.ok (parse t), s₁)

/-- The alias table of `util.normalize_language`, in source order. -/
def language_aliases : List (String × String) :=
  [("Python", "Python"), ("python", "Python"), ("py", "Python"),
   ("python2", "Python"), ("Python2", "Python"), ("py2", "Python"),
   ("Python 3", "Python 3"), ("python3", "Python 3"), ("py3", "Python 3"),
   ("Python3", "Python 3"),
   ("C", "C"), ("c", "C"),
   ("C++", "C++"), ("cpp", "C++"), ("Cpp", "C++"), ("c++", "C++"),
   ("Java", "Java"), ("java", "Java")]

/-- Dictionary lookup in the alias table. -/
def aliasLookup (tbl : List (String × String)) (key : String) : Option String :=
  match tbl with
  | [] => none
  | (k, v) :: rest => if k = key then some v else aliasLookup rest key

/-- Embedding of `util.normalize_language(lang)`.  The Python body rebinds the
local `lang = aliases[lang]` inside `try`, raises
`SystemExit('invalid language: %r' % lang)` on `KeyError`, and then falls off
the end of the function: it has no `return` statement, so on every recognized
alias it returns `None`.  The embedding returns `Option String` for the
function's value: `none` is Python's `None`.  (The `%r` formatting wraps the
name in quote characters; the quotes are elided from the message here.) -/
def normalize_language (lang : String) : Except Err (Option String) :=
  match aliasLookup language_aliases lang with
  | some _ => Except.ok none
  | none => Except.error (Err.systemExit ("invalid language: " ++ lang))

/-- Python `str.strip()`: remove leading and trailing whitespace. -/
def pyStrip (s : String) : String :=
  ⟨((s.data.dropWhile Char.isWhitespace).reverse.dropWhile Char.isWhitespace).reverse⟩

/-- Decimal digit accumulator for `int(s)`. -/
def digitsToNatAux : List Char → Nat → Option Nat
  | [], acc => some acc
  | c :: cs, acc =>
    if c.isDigit then digitsToNatAux cs (acc * 10 + (c.toNat - 48)) else none

/-- A nonempty all-digit character run, as a number (`none` models
`ValueError`). -/
def digitsToNat (cs : List Char) : Option Nat :=
  match cs with
  | [] => none
  | _ => digitsToNatAux cs 0

/-- Python `int(s)` on the characters of a stripped string: an optional sign
followed by decimal digits (`ValueError` otherwise, modelled as `none`). -/
def pyIntList : List Char → Option Int
  | '-' :: cs => (digitsToNat cs).map (fun n => -(n : Int))
  | '+' :: cs => (digitsToNat cs).map (fun n => (n : Int))
  | cs => (digitsToNat cs).map (fun n => (n : Int))

/-- Python `int(s)`: surrounding whitespace stripped, optional sign, digits. -/
def pyInt (s : String) : Option Int :=
  pyIntList (pyStrip s).data

/-- Acceptance of Python `float(s)` on the timing strings in scope: at least
one digit, at most one decimal point, nothing else.  The numeric value of the
float is modelled by its validated literal (no claim inspects it). -/
def pyFloatOk (s : String) : Bool :=
  let t := (pyStrip s).data
  (t.filter (fun c => c = '.')).length ≤ 1 &&
    t.any Char.isDigit &&
    t.all (fun c => c.isDigit || c = '.')

/-- `urilib._ranking(st) = int(st[:-1])`: drop the last character, parse. -/
def _ranking (st : String) : Option Int :=
  pyInt ⟨st.data.dropLast⟩

/-- Accumulator for `str.split(sep)` with a one-character separator. -/
def splitOnCharAux (sep : Char) : List Char → List Char → List (List Char)
  | [], acc => [acc.reverse]
  | c :: cs, acc =>
    if c = sep then acc.reverse :: splitOnCharAux sep cs []
    else splitOnCharAux sep cs (c :: acc)

/-- Python `str.split(sep)` for a one-character separator (the only kind the
source uses: `'-'`, `'/'`, `':'`). -/
def splitOnChar (sep : Char) (s : String) : List String :=
  (splitOnCharAux sep s.data []).map (fun l => ⟨l⟩)

/-- A `datetime.datetime(yy, mm, dd, hh, mi, ss)` value. -/
structure PyDateTime where
  year : Nat
  month : Nat
  day : Nat
  hour : Nat
  minute : Nat
  second : Nat
deriving DecidableEq, Repr

/-- The `datetime.datetime` constructor with its range validation
(`ValueError` on out-of-range fields, modelled as `none`; the day upper bound
is approximated by 31, exact month lengths are immaterial here). -/
def mkDatetime (yy mm dd hh mi ss : Int) : Option PyDateTime :=
  if (1 ≤ yy && yy ≤ 9999 && 1 ≤ mm && mm ≤ 12 && 1 ≤ dd && dd ≤ 31 &&
      0 ≤ hh && hh ≤ 23 && 0 ≤ mi && mi ≤ 59 && 0 ≤ ss && ss ≤ 59) then
    some ⟨yy.toNat, mm.toNat, dd.toNat, hh.toNat, mi.toNat, ss.toNat⟩
  else none

/-- Embedding of `urilib._todatetime(st)`: split on `-` into date and time
(exactly two parts), the date on `/` into `dd, mm, yy`, the time on `:` into
`hh, mi, ss`, convert each with `int`, build
`datetime.datetime(yy, mm, dd, hh, mi, ss)`. -/
def _todatetime (st : String) : Option PyDateTime :=
  match splitOnChar '-' st with
  | [d, t] =>
    match splitOnChar '/' d, splitOnChar ':' t with
    | [dd, mm, yy], [hh, mi, ss] =>
      match pyInt dd, pyInt mm, pyInt yy, pyInt hh, pyInt mi, pyInt ss with
      | some d', some m', some y', some h', some mi', some s' =>
        mkDatetime y' m' d' h' mi' s'
      | _, _, _, _, _, _ => none
    | _, _ => none
  | _ => none

/-- The `Problem` namedtuple of `urilib`
(`id name ranking submission lang time date`); the `time` field holds the
validated float literal. -/
structure Problem where
  id : Int
  name : String
  ranking : Int
  submission : String
  lang : String
  time : String
  date : PyDateTime
deriving DecidableEq, Repr

/-- The per-row conversions in `get_public_problems`:
`data[0] = int(data[0])`, `data[2] = _ranking(data[2])`,
`data[5] = float(data[5])`, `data[6] = _todatetime(data[6])`, then
`Problem(*data)` (which needs exactly 7 cells). -/
def convertRow (data : List String) : Except Err Problem :=
  match data with
  | [d0, d1, d2, d3, d4, d5, d6] =>
    match pyInt d0, _ranking d2, _todatetime d6 with
    | some i, some r, some dt =>
      if pyFloatOk d5 then
        Except.ok ⟨i, d1, r, d3, d4, d5, dt⟩
      else Except.error Err.valueError
    | _, _, _ => Except.error Err.valueError
  | _ => Except.error Err.indexError

/-- The row loop of `get_public_problems` over the table body:
`data = [x.text_content().strip() for x in tr]`; a row whose first cell is
empty or that has a single cell breaks the loop (ending the page's rows);
otherwise the row is converted and appended to the transaction. -/
def extractRows (rows : List (List String)) : Except Err (List Problem) :=
  match rows with
  | [] => Except.ok []
  | row :: rest =>
    let data := row.map pyStrip
    match data with
    | [] => Except.error Err.indexError
    | d0 :: _ =>
      if d0 = "" ∨ data.length = 1 then Except.ok []
      else
        match convertRow data with
        | Except.error e => Except.error e
        | Except.ok p =>
          match extractRows rest with
          | Except.error e => Except.error e
          | Except.ok ps => Except.ok (p :: ps)

/-- The profile listing url,
`'https://www.urionlinejudge.com.br/judge/pt/profile/%s/page:%s/sort:run_id/direction:asc' % (profile, i)`. -/
def urlbase (profile : String) (i : Nat) : String :=
  "https://www.urionlinejudge.com.br/judge/pt/profile/" ++ profile ++
    "/page:" ++ toString i ++ "/sort:run_id/direction:asc"

/-- The `while True` loop of `urilib.get_public_problems`, with fuel standing
for the unbounded iteration count.  Each iteration: `i += 1`, build the url,
`htmlopen` it (a `RuntimeError` whose first argument is 404 breaks the loop,
any other exception propagates), extract the transaction from the table body;
a full page of 28 rows is appended and the loop continues; a short page whose
url is not yet in `refreshed` triggers `urlopen(url, expires=120)`, adds the
url to `refreshed` and retries the same index (`i -= 1`); a short page already
refreshed is appended and the loop breaks. -/
def gppLoop (parse : String → List (List String)) (net : String → NetResult)
    (profile : String) :
    Nat → List Problem → List String → Nat → St → Except Err (List Problem) × St
  | 0, _, _, _, s => (Except.error Err.fuelOut, s)
  | Nat.succ fuel, problems, refreshed, i, s =>
    let i' := i + 1
    let url := urlbase profile i'
    match htmlopen parse net url false none s with
    | (Except.error (Err.runtimeError 404 _), s₁) => (Except.ok problems, s₁)
    | (Except.error e, s₁) => (Except.error e, s₁)
    | (Except.ok rows, s₁) =>
      match extractRows rows with
      | Except.error e => (Except.error e, s₁)
      | Except.ok transaction =>
        if transaction.length = 28 then
          gppLoop parse net profile fuel (problems ++ transaction) refreshed i' s₁
        else if url ∈ refreshed then
          (Except.ok (problems ++ transaction), s₁)
        else
          match urlopen net url false (some 120) s₁ with
          | (Except.error e, s₂) => (Except.error e, s₂)
          | (Except.ok _, s₂) =>
            gppLoop parse net profile fuel problems (refreshed ++ [url]) (i' - 1) s₂

/-- Embedding of `urilib.get_public_problems(profile)`: run the pagination
loop from page index 0 (incremented to 1 on entry) with empty accumulators.
The resulting list is the data of the returned `DataFrame`, pages in
ascending order and rows in source order within each page. -/
def get_public_problems (parse : String → List (List String))
    (net : String → NetResult) (profile : String) (fuel : Nat) (s : St) :
    Except Err (List Problem) × St :=
  gppLoop parse net profile fuel [] [] 0 s

/-- A progress-table cell value: `float('nan')`, or a score (0 or 100). -/
inductive CellValue where
  | nan
  | score (n : Nat)
deriving DecidableEq, Repr

/-- The result-cell classification of `Discipline.progress`: the cell's class
attribute is mapped `void ↦ float('nan')`, `tried ↦ 0`, `solved ↦ 100`; any
other class raises a bare `RuntimeError` (the spec's `ParseError`). -/
def progressCellValue (cls : String) : Except Err CellValue :=
  if cls = "void" then Except.ok CellValue.nan
  else if cls = "tried" then Except.ok (CellValue.score 0)
  else if cls = "solved" then Except.ok (CellValue.score 100)
  else Except.error Err.parseError

/-- The inner response loop of `Discipline.progress` over one row's result
cells (`for x in row[1:-1]`): classify each cell, appending to the response;
the first unrecognized class aborts the whole extraction. -/
def progressRow (classes : List String) : Except Err (List CellValue) :=
  match classes with
  | [] => Except.ok []
  | c :: rest =>
    match progressCellValue c with
    | Except.error e => Except.error e
    | Except.ok v =>
      match progressRow rest with
      | Except.error e => Except.error e
      | Except.ok vs => Except.ok (v :: vs)

/-! ### Concrete scenarios

Environments (network behavior, page contents, initial cache states) used to
evaluate the embedded code on the inputs the claims talk about. -/

/-- Network for the transport-failure scenario: every request fails with a
timeout / connection error. -/
def failNet (_ : String) : NetResult := NetResult.transportFail

/-- Initial state with url `"A"` cached as text, fetched at minute 0, current
time minute 10, healthy network, no requests issued yet. -/
def stateA : St := ⟨[("A", ⟨0, Payload.text "cached"⟩)], false, 10, []⟩

/-- Like `stateA` but with `INTERNET_SLOW` already set. -/
def stateSlow : St := ⟨[("A", ⟨0, Payload.text "cached"⟩)], true, 10, []⟩

/-- Network where url `"W"` answers 200 with body text `"body"`. -/
def okNet (url : String) : NetResult :=
  if url = "W" then NetResult.ok 200 "body" else NetResult.transportFail

/-- Network for the non-success-status scenario: url `"E"` answers 404. -/
def notFoundNet (url : String) : NetResult :=
  if url = "E" then NetResult.ok 404 "nf" else NetResult.transportFail

/-- Empty cache, healthy network, time 7. -/
def stateE : St := ⟨[], false, 7, []⟩

/-- The page-1 profile url of the short-page scenario. -/
def c3url : String := urlbase "u" 1

/-- One well-formed listing row of the short-page scenario. -/
def c3row (j : Nat) : List String :=
  [toString (j + 1), "Q", "2%", "t", "C", "0.5", "01/01/17-10:00:00"]

/-- Ten rows: a short page (fewer than the full-page count of 28). -/
def c3rows : List (List String) := (List.range 10).map c3row

/-- Parse environment of the short-page scenario: the page text `"short"`
holds the ten rows. -/
def c3parse (t : String) : List (List String) :=
  if t = "short" then c3rows else []

/-- Network of the short-page scenario: the page-1 url keeps answering the
same short page; everything else fails. -/
def c3net (url : String) : NetResult :=
  if url = c3url then NetResult.ok 200 "short" else NetResult.transportFail

/-- Initial state of the short-page scenario: the page-1 url is cached as the
short page, fetched at minute `c`; the current time is minute 1000. -/
def c3state (c : Nat) : St := ⟨[(c3url, ⟨c, Payload.text "short"⟩)], false, 1000, []⟩

/-- The ten converted rows the paginator should return in the short-page
scenario. -/
def c3expected : List Problem :=
  (List.range 10).map (fun j => ⟨(j : Int) + 1, "Q", 2, "t", "C", "0.5", ⟨17, 1, 1, 10, 0, 0⟩⟩)

/-- The state after the 120-minute-expiry refresh actually re-downloads the
short page: entry re-dated to minute 1000, one live request with timeout 10. -/
def c3refreshedState : St :=
  ⟨[(c3url, ⟨1000, Payload.text "short"⟩)], false, 1000, [(c3url, 10)]⟩

/-- One well-formed listing row of the clean-end scenario, carrying its global
index as the problem id. -/
def c4row (k : Nat) : List String :=
  [toString k, "P", "1%", "s", "C", "1.5", "02/03/17-01:02:03"]

/-- A full page of 28 rows (page `p`, zero-based). -/
def c4page (p : Nat) : List (List String) :=
  (List.range 28).map (fun j => c4row (28 * p + j))

/-- Parse environment of the clean-end scenario: three page texts holding the
three full pages. -/
def c4parse (t : String) : List (List String) :=
  if t = "pg1" then c4page 0
  else if t = "pg2" then c4page 1
  else if t = "pg3" then c4page 2
  else []

/-- Network of the clean-end scenario: pages 1-3 answer 200 with full pages,
page 4 answers 404. -/
def c4net (url : String) : NetResult :=
  if url = urlbase "u" 1 then NetResult.ok 200 "pg1"
  else if url = urlbase "u" 2 then NetResult.ok 200 "pg2"
  else if url = urlbase "u" 3 then NetResult.ok 200 "pg3"
  else if url = urlbase "u" 4 then NetResult.ok 404 "x"
  else NetResult.transportFail

/-- Empty initial cache for the clean-end scenario. -/
def c4empty : St := ⟨[], false, 0, []⟩

/-- Clean-end scenario with the page-4 404 already recorded in the cache. -/
def c4seeded : St := ⟨[(urlbase "u" 4, ⟨0, Payload.code 404⟩)], false, 0, []⟩

/-- The 84 converted rows of pages 1-3, pages in ascending order and rows in
source order: the problem ids read 0, 1, ..., 83. -/
def c4expected : List Problem :=
  (List.range 84).map (fun k => ⟨(k : Int), "P", 1, "s", "C", "1.5", ⟨17, 3, 2, 1, 2, 3⟩⟩)

/-! ### Helper lemmas -/

/-- Looking up a url right after storing it yields the stored entry. -/
theorem cacheGet_cacheSet_self (c : List (String × CacheEntry)) (url : String)
    (e : CacheEntry) : cacheGet (cacheSet c url e) url = some e := by
  induction c with
  | nil => simp [cacheSet, cacheGet]
  | cons kv rest ih =>
    obtain ⟨k, v⟩ := kv
    by_cases h : k = url
    · simp [cacheSet, cacheGet, h]
    · simp [cacheSet, cacheGet, h, ih]

/-- The download section never clears `INTERNET_SLOW`. -/
theorem fetchLive_slow_mono (net : String → NetResult) (url : String) (s : St)
    (h : s.internet_slow = true) : (fetchLive net url s).2.internet_slow = true := by
  unfold fetchLive
  cases hn : net url with
  | transportFail =>
    dsimp only
    split <;> rfl
  | ok status text => simp [urlsave, h]

/-- `urlopen` never clears `INTERNET_SLOW`: the flag is sticky across any
single call, whatever the arguments and the network behavior. -/
theorem urlopen_slow_mono (net : String → NetResult) (url : String) (r : Bool)
    (e : Option Nat) (s : St) (h : s.internet_slow = true) :
    (urlopen net url r e s).2.internet_slow = true := by
  unfold urlopen
  cases hc : cacheGet s.cache url with
  | none => exact fetchLive_slow_mono net url s h
  | some entry =>
    cases r with
    | true => simpa using fetchLive_slow_mono net url s h
    | false =>
      cases hd : entry.data with
      | code n => simp [hd, h]
      | text t => simp [hd, h]

/-- `urlrefresh` never clears `INTERNET_SLOW` either. -/
theorem urlrefresh_slow_mono (net : String → NetResult) (url : String) (r : Bool)
    (e : Option Nat) (s : St) (h : s.internet_slow = true) :
    (urlrefresh net url r e s).2.internet_slow = true := by
  unfold urlrefresh
  cases hc : cacheGet s.cache url with
  | none => simpa using h
  | some entry =>
    have hmono := urlopen_slow_mono net url r e { s with cache := cacheDel s.cache url } h
    rcases hu : urlopen net url r e { s with cache := cacheDel s.cache url } with ⟨res, s₂⟩
    rw [hu] at hmono
    dsimp only
    rw [hu]
    cases res <;> simpa using hmono

/-! ### Claim theorems -/

/-- Claim C1: the claim says that on a transport failure with a cached text
payload, `urlopen` sets the degraded flag and returns the cached value.  The
code indeed sets `INTERNET_SLOW = True` and, with no cache entry, re-raises
the transport failure — but with a cache entry it does not return: the
handler falls through to `data = request.status_code ...` and the call raises
`UnboundLocalError` instead of returning the cached text.  Evaluation at url
`"A"` (cached text aged 10 > expiry 5, transport failure) and url `"B"`
(no cache entry, transport failure). -/
theorem c1_transport_failure_eval :
    urlopen failNet "A" false (some 5) stateA =
      (Except.error Err.unboundLocal,
        ⟨[("A", ⟨0, Payload.text "cached"⟩)], true, 10, [("A", 10)]⟩)
    ∧ urlopen failNet "B" false (some 5) stateA =
      (Except.error Err.transportError,
        ⟨[("A", ⟨0, Payload.text "cached"⟩)], true, 10, [("B", 30)]⟩) :=
  ⟨rfl, rfl⟩

/-- Claim C2: the claim says that on a completed non-success response
`urlopen` stores the status code as the cache payload and raises
`HttpError(status_code)` rather than returning normally.  The code does store
the code, but the fetching call itself returns the integer normally
(`return data`); only a subsequent call, finding the cached integer, raises
`RuntimeError(status, url)`.  Evaluation at url `"E"` answering 404 from an
empty cache, then a second call on the resulting state. -/
theorem c2_non_success_eval :
    urlopen notFoundNet "E" false none stateE =
      (Except.ok (Payload.code 404),
        ⟨[("E", ⟨7, Payload.code 404⟩)], false, 7, [("E", 30)]⟩)
    ∧ (urlopen notFoundNet "E" false none
        (urlopen notFoundNet "E" false none stateE).2).1 =
      Except.error (Err.runtimeError 404 "E") :=
  ⟨rfl, rfl⟩

/-- Claim C3 counterexample: the claim says the first short page forces a
refresh fetch that bypasses the cache and re-requests the page live.  In the
short-page scenario with a cache entry fetched at the current minute (age 0),
the whole pagination run issues no live request at all — the `expires=120`
refresh call is answered from the cache — yet still re-processes the page and
accepts it on the second occurrence. -/
theorem c3_short_page_counterexample :
    (get_public_problems c3parse c3net "u" 5 (c3state 1000)).1 = Except.ok c3expected
    ∧ (get_public_problems c3parse c3net "u" 5 (c3state 1000)).2.netLog = [] :=
  ⟨rfl, rfl⟩

/-- Claim C3 (amended): the first short page triggers
`urlopen(url, expires=120)` — a refresh governed by a 120-minute expiry
policy, which re-requests the page live only when the cached entry is older
than 120 minutes — and the same page index is re-processed without advancing;
the second short page for the same URL is accepted as final, pagination ends,
and page N+1 is never requested.  Conjuncts one and two settle the refresh
call for an entry of age `1000 - c` on each side of the 120-minute boundary;
conjuncts three and four run the full pagination with an entry of age 1000:
it ends with the ten rows after exactly one live request for page 1 and no
request for page 2. -/
theorem c3_short_page_refresh_policy (c : Nat) :
    (1000 - c ≤ 120 →
      urlopen c3net c3url false (some 120) (c3state c) =
        (Except.ok (Payload.text "short"), c3state c))
    ∧ (120 < 1000 - c →
      urlopen c3net c3url false (some 120) (c3state c) =
        (Except.ok (Payload.text "short"), c3refreshedState))
    ∧ (get_public_problems c3parse c3net "u" 5 (c3state 0)).1 = Except.ok c3expected
    ∧ (get_public_problems c3parse c3net "u" 5 (c3state 0)).2.netLog = [(c3url, 10)] := by
  refine ⟨?_, ?_, rfl, rfl⟩
  · intro h
    simp [urlopen, c3state, cacheGet, MINUTE_DELTA, h]
  · intro h
    simp [urlopen, c3state, cacheGet, MINUTE_DELTA, Nat.not_le.mpr h, fetchLive,
      c3net, urlsave, cacheSet, c3refreshedState, c3url]

/-- Claim C3 witness: the refresh call at entry age exactly 120 is served from
the cache, and at age 1000 it re-downloads the page. -/
theorem c3_short_page_refresh_policy_witness :
    urlopen c3net c3url false (some 120) (c3state 880) =
      (Except.ok (Payload.text "short"), c3state 880)
    ∧ urlopen c3net c3url false (some 120) (c3state 0) =
      (Except.ok (Payload.text "short"), c3refreshedState) :=
  ⟨(c3_short_page_refresh_policy 880).1 (by decide),
   (c3_short_page_refresh_policy 0).2.1 (by decide)⟩

/-- Claim C4: the claim says three full pages followed by a 404 yield the 84
rows in order, in particular from an empty cache where the 404 is first seen
live.  From the empty cache, the live 404 makes `urlopen` return the integer
404, `htmlopen` hands it to the HTML parse which raises `ValueError`, and
`get_public_problems` (which only catches `RuntimeError`) crashes instead of
terminating.  Only when the 404 is already recorded in the cache does the run
terminate with the 84 rows of pages 1-3 in page order then in-page row order
(the expected ids read 0, 1, ..., 83), never requesting page 4 live. -/
theorem c4_clean_end_eval :
    (get_public_problems c4parse c4net "u" 10 c4empty).1 = Except.error Err.parseIntError
    ∧ (get_public_problems c4parse c4net "u" 10 c4seeded).1 = Except.ok c4expected
    ∧ (get_public_problems c4parse c4net "u" 10 c4seeded).2.netLog =
        [(urlbase "u" 1, 30), (urlbase "u" 2, 30), (urlbase "u" 3, 30)] :=
  ⟨rfl, rfl, rfl⟩

/-- Claim C5: in progress-table extraction every result cell is converted by
exactly `void ↦ NaN`, `tried ↦ 0`, `solved ↦ 100`, and any other class value
fails the extraction with the fatal parse error (the bare `RuntimeError`)
rather than defaulting. -/
theorem c5_progress_cell_mapping :
    progressCellValue "void" = Except.ok CellValue.nan
    ∧ progressCellValue "tried" = Except.ok (CellValue.score 0)
    ∧ progressCellValue "solved" = Except.ok (CellValue.score 100)
    ∧ ∀ c : String, c ≠ "void" → c ≠ "tried" → c ≠ "solved" →
        progressCellValue c = Except.error Err.parseError := by
  refine ⟨rfl, rfl, rfl, ?_⟩
  intro c h1 h2 h3
  simp [progressCellValue, h1, h2, h3]

/-- Claim C5 witness: the unrecognized class `"accepted"` is a fatal error. -/
theorem c5_progress_cell_mapping_witness :
    progressCellValue "accepted" = Except.error Err.parseError :=
  c5_progress_cell_mapping.2.2.2 "accepted" (by decide) (by decide) (by decide)

/-- Claim C6: after a successful fetch has stored a text payload (a cache
miss answered 200), a second fetch of the same url with the no-expiry policy
returns the identical payload and leaves the state unchanged — no network
call — so exactly one network request is logged across the two fetches. -/
theorem c6_idempotent_fresh_cache_read (net : String → NetResult) (url t : String)
    (s : St) (hmiss : cacheGet s.cache url = none)
    (hnet : net url = NetResult.ok 200 t) :
    (urlopen net url false none s).1 = Except.ok (Payload.text t)
    ∧ (urlopen net url false none s).2.netLog = s.netLog ++ [(url, 30)]
    ∧ urlopen net url false none (urlopen net url false none s).2 =
        (Except.ok (Payload.text t), (urlopen net url false none s).2) := by
  have h1 : urlopen net url false none s =
      (Except.ok (Payload.text t),
        { s with cache := cacheSet s.cache url ⟨s.now, Payload.text t⟩,
                 netLog := s.netLog ++ [(url, 30)] }) := by
    simp [urlopen, hmiss, fetchLive, hnet, urlsave]
  refine ⟨by rw [h1], by rw [h1], ?_⟩
  rw [h1]
  simp [urlopen, cacheGet_cacheSet_self]

/-- Claim C6 witness: fetching url `"W"` twice from the empty cache. -/
theorem c6_idempotent_fresh_cache_read_witness :
    (urlopen okNet "W" false none stateE).1 = Except.ok (Payload.text "body")
    ∧ (urlopen okNet "W" false none stateE).2.netLog = stateE.netLog ++ [("W", 30)]
    ∧ urlopen okNet "W" false none (urlopen okNet "W" false none stateE).2 =
        (Except.ok (Payload.text "body"), (urlopen okNet "W" false none stateE).2) :=
  c6_idempotent_fresh_cache_read okNet "W" "body" stateE (by decide) (by decide)

/-- Claim C7: with an expires-after-`T`-minutes policy and a healthy network,
a cached text entry of age exactly `T` (indeed any age up to `T`) is returned
without a network call (the state is unchanged), while an age exceeding `T`
sends the call into the download section (`fetchLive`), a refetch attempt. -/
theorem c7_expiry_boundary (net : String → NetResult) (url t : String)
    (c T : Nat) (s : St) (hc : cacheGet s.cache url = some ⟨c, Payload.text t⟩)
    (hslow : s.internet_slow = false) :
    (s.now - c = T →
      urlopen net url false (some T) s = (Except.ok (Payload.text t), s))
    ∧ (T < s.now - c →
      urlopen net url false (some T) s = fetchLive net url s) := by
  constructor
  · intro hage
    simp [urlopen, hc, hslow, MINUTE_DELTA, hage]
  · intro hage
    simp [urlopen, hc, hslow, MINUTE_DELTA, Nat.not_le.mpr hage]

/-- Claim C7 witness: url `"A"` cached at minute 0, clock at minute 10: age
exactly `T = 10` is fresh; with `T = 3` the call goes to the network. -/
theorem c7_expiry_boundary_witness :
    urlopen failNet "A" false (some 10) stateA = (Except.ok (Payload.text "cached"), stateA)
    ∧ urlopen failNet "A" false (some 3) stateA = fetchLive failNet "A" stateA :=
  ⟨(c7_expiry_boundary failNet "A" "cached" 0 10 stateA (by decide) (by decide)).1 (by decide),
   (c7_expiry_boundary failNet "A" "cached" 0 3 stateA (by decide) (by decide)).2 (by decide)⟩

/-- Claim C8: once `INTERNET_SLOW` is set, a fetch of any url with a cached
text payload returns that value with the state unchanged — no expiry check
and no live request, whatever the expiry argument — and no call of `urlopen`
or `urlrefresh` ever clears the flag. -/
theorem c8_degraded_sticky (net : String → NetResult) (url : String) (r : Bool)
    (expires : Option Nat) (s : St) (c : Nat) (t : String)
    (hslow : s.internet_slow = true) :
    (cacheGet s.cache url = some ⟨c, Payload.text t⟩ →
      urlopen net url false expires s = (Except.ok (Payload.text t), s))
    ∧ (urlopen net url r expires s).2.internet_slow = true
    ∧ (urlrefresh net url r expires s).2.internet_slow = true := by
  refine ⟨?_, urlopen_slow_mono net url r expires s hslow,
    urlrefresh_slow_mono net url r expires s hslow⟩
  intro hc
  simp [urlopen, hc, hslow]

/-- Claim C8 witness: in the degraded state the cached url `"A"` is returned
unconditionally even with a 1-minute expiry, and the flag stays set. -/
theorem c8_degraded_sticky_witness :
    urlopen failNet "A" false (some 1) stateSlow = (Except.ok (Payload.text "cached"), stateSlow)
    ∧ (urlopen failNet "A" true (some 1) stateSlow).2.internet_slow = true
    ∧ (urlrefresh failNet "A" true (some 1) stateSlow).2.internet_slow = true :=
  ⟨(c8_degraded_sticky failNet "A" true (some 1) stateSlow 0 "cached" (by decide)).1 (by decide),
   (c8_degraded_sticky failNet "A" true (some 1) stateSlow 0 "cached" (by decide)).2.1,
   (c8_degraded_sticky failNet "A" true (some 1) stateSlow 0 "cached" (by decide)).2.2⟩

/-- Claim C9: the claim says `normalize_language` returns the canonical label
for each recognized alias.  The Python function has no `return` statement: it
returns `None` for every recognized alias (for example `py3` and `cpp`), so
the claim fails; only the fatal failure on unrecognized input holds. -/
theorem c9_normalize_language_eval :
    normalize_language "py3" = Except.ok none
    ∧ normalize_language "cpp" = Except.ok none
    ∧ normalize_language "pascal" = Except.error (Err.systemExit "invalid language: pascal") :=
  ⟨rfl, rfl, rfl⟩

/-- Claim C10: `urlrefresh` on a url with no cache entry raises `KeyError`
with the state fully unchanged (no network request, no cache mutation); with
an entry present it behaves as `urlopen` run on the state with that entry
deleted. -/
theorem c10_urlrefresh_missing_key (net : String → NetResult) (url : String)
    (r : Bool) (expires : Option Nat) (s : St) :
    (cacheGet s.cache url = none →
      urlrefresh net url r expires s = (Except.error (Err.keyError url), s))
    ∧ (∀ e, cacheGet s.cache url = some e →
        (urlrefresh net url r expires s).2 =
          (urlopen net url r expires { s with cache := cacheDel s.cache url }).2) := by
  constructor
  · intro hc
    simp [urlrefresh, hc]
  · intro e hc
    unfold urlrefresh
    rw [hc]
    dsimp only
    rcases hu : urlopen net url r expires { s with cache := cacheDel s.cache url } with ⟨res, s₂⟩
    cases res <;> rfl

/-- Claim C10 witness: refreshing the uncached url `"Z"` raises `KeyError`
and changes nothing; refreshing the cached url `"A"` lands in the state of a
fresh `urlopen` after the deletion. -/
theorem c10_urlrefresh_missing_key_witness :
    urlrefresh failNet "Z" false none stateA = (Except.error (Err.keyError "Z"), stateA)
    ∧ (urlrefresh failNet "A" false none stateA).2 =
        (urlopen failNet "A" false none { stateA with cache := cacheDel stateA.cache "A" }).2 :=
  ⟨(c10_urlrefresh_missing_key failNet "Z" false none stateA).1 (by decide),
   (c10_urlrefresh_missing_key failNet "A" false none stateA).2
     ⟨0, Payload.text "cached"⟩ (by decide)⟩

end Uritool
